import Mathlib

/-!
Shallow embedding of the inventory backend (src/main.py, src/schemas.py).

The MongoDB collections are modelled as Lean lists held in a `StoreState`;
`find_one` is `List.find?` on the business key, and `update_one` updates the
first matching document, exactly as MongoDB does.  Python integers are `Int`
(arbitrary precision, no clamping, matching the `$inc` semantics).  Fields
that the lifecycle engine never reads or writes (`name`, `cost`,
`schedule_date`, `responsible`, `date` on moves, location/warehouse records)
are omitted from the records: they are carried through unchanged by every
modelled operation and no claim mentions them.  Endpoints return 404 when the
reference lookup fails; this is modelled by an `Option` result, `none`
standing for the HTTP 404.
-/

/-- A product document (schemas.Product): `sku`, `on_hand`, `free_to_use`. -/
structure Product where
  sku : String
  on_hand : Int
  free_to_use : Int
deriving DecidableEq, Repr

/-- An operation line (schemas.ReceiptLine / schemas.DeliveryLine). -/
structure Line where
  product_sku : String
  quantity : Int
deriving DecidableEq, Repr

/-- A receipt or delivery document (schemas.Receipt / schemas.Delivery):
both variants share this shape in the lifecycle engine. -/
structure Operation where
  reference : String
  from_location : Option String
  to_location : Option String
  contact : Option String
  status : String
  lines : List Line
deriving DecidableEq, Repr

/-- A move-ledger record (schemas.Move); the `date` field is omitted
(it is `datetime.utcnow()` at append time and read by nothing). -/
structure Move where
  reference : String
  contact : Option String
  from_location : Option String
  to_location : Option String
  product_sku : String
  quantity : Int
  direction : String
  status : String
deriving DecidableEq, Repr

/-- The document store: the `product`, `receipt`, `delivery` and `move`
collections, in insertion order. -/
structure StoreState where
  products : List Product
  receipts : List Operation
  deliveries : List Operation
  moves : List Move
deriving DecidableEq, Repr

/-- `db["product"].find_one({"sku": sku})`: first product with the sku. -/
def findProduct (ps : List Product) (sku : String) : Option Product :=
  ps.find? (fun p => p.sku == sku)

/-- `db["product"].update_one({"sku": sku}, {"$inc": {...}})`: apply signed
deltas to the first product with the sku; no match is a silent no-op. -/
def incProduct (ps : List Product) (sku : String) (dOn dFree : Int) : List Product :=
  match ps with
  | [] => []
  | p :: rest =>
    if p.sku == sku then
      { p with on_hand := p.on_hand + dOn, free_to_use := p.free_to_use + dFree } :: rest
    else
      p :: incProduct rest sku dOn dFree

/-- `db[col].find_one({"reference": reference})` on an operation collection. -/
def findOp (ops : List Operation) (reference : String) : Option Operation :=
  ops.find? (fun o => o.reference == reference)

/-- `db[col].update_one({"reference": reference}, {"$set": {"status": s}})`:
set the status of the first operation with the reference. -/
def setOpStatus (ops : List Operation) (reference s : String) : List Operation :=
  match ops with
  | [] => []
  | o :: rest =>
    if o.reference == reference then
      { o with status := s } :: rest
    else
      o :: setOpStatus rest reference s

/-- The Move constructed per line inside the validate branches of
`receipt_action` / `delivery_action` (direction `'in'` resp. `'out'`). -/
def mkMove (reference : String) (op : Operation) (direction : String) (l : Line) : Move :=
  { reference := reference
    contact := op.contact
    from_location := op.from_location
    to_location := op.to_location
    product_sku := l.product_sku
    quantity := l.quantity
    direction := direction
    status := "Done" }

/-- The JSON body returned by the action endpoints: `{reference, status}`. -/
structure ActionResult where
  reference : String
  status : String
deriving DecidableEq, Repr

/-- `POST /receipts/{reference}/action` (main.receipt_action).  `none` models
the 404 on an unknown reference; otherwise the new store state and the
response body are returned. -/
def receipt_action (st : StoreState) (reference action : String) :
    Option (StoreState × ActionResult) :=
  match findOp st.receipts reference with
  | none => none
  | some op =>
    let status := op.status
    let (st1, status1) :=
      if action == "todo" && status == "Draft" then
        (st, "Ready")
      else if action == "validate" && status == "Ready" then
        let products := op.lines.foldl
          (fun ps l => incProduct ps l.product_sku l.quantity l.quantity) st.products
        let moves := st.moves ++ op.lines.map (mkMove reference op "in")
        ({ st with products := products, moves := moves }, "Done")
      else if action == "cancel" then
        (st, "Canceled")
      else
        (st, status)
    some ({ st1 with receipts := setOpStatus st1.receipts reference status1 },
          { reference := reference, status := status1 })

/-- Whether a delivery line lands in the `insufficient` list of the `todo`
branch of main.delivery_action: the product is missing, or its
`free_to_use` is below the requested quantity. -/
def lineInsufficient (ps : List Product) (l : Line) : Bool :=
  match findProduct ps l.product_sku with
  | none => true
  | some p => p.free_to_use < l.quantity

/-- `POST /deliveries/{reference}/action` (main.delivery_action). -/
def delivery_action (st : StoreState) (reference action : String) :
    Option (StoreState × ActionResult) :=
  match findOp st.deliveries reference with
  | none => none
  | some op =>
    let status := op.status
    let (st1, status1) :=
      if action == "todo" && status == "Draft" then
        let insufficient := op.lines.filter (lineInsufficient st.products)
        (st, if insufficient.isEmpty then "Ready" else "Waiting")
      else if action == "validate" && status == "Ready" then
        let products := op.lines.foldl
          (fun ps l => incProduct ps l.product_sku (-l.quantity) (-l.quantity)) st.products
        let moves := st.moves ++ op.lines.map (mkMove reference op "out")
        ({ st with products := products, moves := moves }, "Done")
      else if action == "cancel" then
        (st, "Canceled")
      else
        (st, status)
    some ({ st1 with deliveries := setOpStatus st1.deliveries reference status1 },
          { reference := reference, status := status1 })

/-- Python `f"{count:04d}"` for a nonnegative count: decimal digits padded
with leading zeros to width at least 4. -/
def pad4 (n : Nat) : String :=
  let s := toString n
  if s.length < 4 then String.mk (List.replicate (4 - s.length) '0') ++ s else s

/-- `POST /receipts` (main.create_receipt): reference is `WH/IN/` followed by
the padded receipt count plus one; the new receipt starts in `Draft` and is
inserted into the collection. -/
def create_receipt (st : StoreState)
    (from_location to_location contact : Option String) (lines : List Line) :
    StoreState × Operation :=
  let count := st.receipts.length + 1
  let reference := "WH/IN/" ++ pad4 count
  let op : Operation :=
    { reference := reference
      from_location := from_location
      to_location := some (to_location.getD "STOCK")
      contact := contact
      status := "Draft"
      lines := lines }
  ({ st with receipts := st.receipts ++ [op] }, op)

/-- `POST /deliveries` (main.create_delivery): reference is `WH/OUT/` followed
by the padded delivery count plus one; starts in `Draft`. -/
def create_delivery (st : StoreState)
    (to_location contact : Option String) (lines : List Line) :
    StoreState × Operation :=
  let count := st.deliveries.length + 1
  let reference := "WH/OUT/" ++ pad4 count
  let op : Operation :=
    { reference := reference
      from_location := some "STOCK"
      to_location := some (to_location.getD "CUSTOMER")
      contact := contact
      status := "Draft"
      lines := lines }
  ({ st with deliveries := st.deliveries ++ [op] }, op)

/-- Sum of `d l` over the lines whose `product_sku` equals `sku`: the total
delta a validate pass applies to that product. -/
def lineSum (d : Line → Int) (sku : String) : List Line → Int
  | [] => 0
  | l :: rest => (if l.product_sku == sku then d l else 0) + lineSum d sku rest

/-! Concrete sample data, used to instantiate the lifecycle theorems on
closed inputs.  The product records are the seed catalog of the backend
(`DESK001` with on_hand 50 / free_to_use 45, `TABLE001` with 50 / 50);
`GHOST` is a sku with no product record. -/

/-- The seed catalog: two products, no `GHOST` record. -/
def sampleProducts : List Product :=
  [{ sku := "DESK001", on_hand := 50, free_to_use := 45 },
   { sku := "TABLE001", on_hand := 50, free_to_use := 50 }]

/-- A line for five desks, as in the seed receipt. -/
def deskLine : Line := { product_sku := "DESK001", quantity := 5 }

/-- A line against a sku that has no product record. -/
def ghostLine : Line := { product_sku := "GHOST", quantity := 3 }

/-- A sample receipt with reference `R1` in the given status. -/
def sampleReceipt (status : String) (ls : List Line) : Operation :=
  { reference := "R1", from_location := some "SUPPLIER", to_location := some "STOCK",
    contact := some "Acme", status := status, lines := ls }

/-- A sample delivery with reference `D1` in the given status. -/
def sampleDelivery (status : String) (ls : List Line) : Operation :=
  { reference := "D1", from_location := some "STOCK", to_location := some "CUSTOMER",
    contact := some "John", status := status, lines := ls }

/-- A store holding the seed catalog plus the given operations. -/
def sampleState (rs ds : List Operation) : StoreState :=
  { products := sampleProducts, receipts := rs, deliveries := ds, moves := [] }

def rReady : Operation := sampleReceipt "Ready" [deskLine]
def rDone : Operation := sampleReceipt "Done" [deskLine]
def rDraft : Operation := sampleReceipt "Draft" [deskLine]
def rGhost : Operation := sampleReceipt "Ready" [ghostLine]
def dReady : Operation := sampleDelivery "Ready" [deskLine]
def dDone : Operation := sampleDelivery "Done" [deskLine]
def dDraft : Operation := sampleDelivery "Draft" [deskLine]
def dCanceled : Operation := sampleDelivery "Canceled" [deskLine]
def dGhost : Operation := sampleDelivery "Ready" [ghostLine]
def dGhostDraft : Operation := sampleDelivery "Draft" [ghostLine]

def stC1 : StoreState := sampleState [rReady] []
def stC2 : StoreState := sampleState [] [dReady]
def stC3 : StoreState := sampleState [] [dDraft]
def stC4 : StoreState := sampleState [rDone] [dDone]
def stC5 : StoreState := sampleState [rDone] [dCanceled]
def stC6 : StoreState := sampleState [rReady] [dReady]
def stC7 : StoreState := sampleState [rDraft] [dDraft]
def stC8 : StoreState := sampleState [rGhost] [dGhost]
def stC9 : StoreState := sampleState [] []
def stC10 : StoreState := sampleState [] [dGhostDraft]

/-! Helper lemmas about the store primitives: how `find_one` interacts with
`update_one`-style updates on the `product` and operation collections. -/

theorem findProduct_cons_pos (p : Product) (ps : List Product) (sku : String)
    (h : p.sku = sku) : findProduct (p :: ps) sku = some p :=
  List.find?_cons_of_pos _ (by simp [h])

theorem findProduct_cons_neg (p : Product) (ps : List Product) (sku : String)
    (h : p.sku ≠ sku) : findProduct (p :: ps) sku = findProduct ps sku :=
  List.find?_cons_of_neg _ (by simp [h])

theorem incProduct_cons_pos (p : Product) (ps : List Product) (sku : String) (dOn dFree : Int)
    (h : p.sku = sku) :
    incProduct (p :: ps) sku dOn dFree =
      { p with on_hand := p.on_hand + dOn, free_to_use := p.free_to_use + dFree } :: ps := by
  simp [incProduct, h]

theorem incProduct_cons_neg (p : Product) (ps : List Product) (sku : String) (dOn dFree : Int)
    (h : p.sku ≠ sku) :
    incProduct (p :: ps) sku dOn dFree = p :: incProduct ps sku dOn dFree := by
  simp [incProduct, h]

theorem findProduct_incProduct_self (ps : List Product) (sku : String) (dOn dFree : Int) :
    findProduct (incProduct ps sku dOn dFree) sku =
      (findProduct ps sku).map
        (fun p => { p with on_hand := p.on_hand + dOn, free_to_use := p.free_to_use + dFree }) := by
  induction ps with
  | nil => rfl
  | cons p rest ih =>
    by_cases h : p.sku = sku
    · rw [incProduct_cons_pos p rest sku dOn dFree h, findProduct_cons_pos p rest sku h,
        findProduct_cons_pos
          { p with on_hand := p.on_hand + dOn, free_to_use := p.free_to_use + dFree } rest sku h]
      rfl
    · rw [incProduct_cons_neg p rest sku dOn dFree h, findProduct_cons_neg p _ sku h,
        findProduct_cons_neg p rest sku h, ih]

theorem findProduct_incProduct_ne (ps : List Product) (sku sku' : String) (dOn dFree : Int)
    (h : sku' ≠ sku) :
    findProduct (incProduct ps sku dOn dFree) sku' = findProduct ps sku' := by
  induction ps with
  | nil => rfl
  | cons p rest ih =>
    by_cases hp : p.sku = sku
    · rw [incProduct_cons_pos p rest sku dOn dFree hp]
      rw [findProduct_cons_neg
          { p with on_hand := p.on_hand + dOn, free_to_use := p.free_to_use + dFree } rest sku'
          (by simpa [hp] using Ne.symm h),
        findProduct_cons_neg p rest sku' (by rw [hp]; exact Ne.symm h)]
    · rw [incProduct_cons_neg p rest sku dOn dFree hp]
      by_cases hp' : p.sku = sku'
      · rw [findProduct_cons_pos p (incProduct rest sku dOn dFree) sku' hp',
          findProduct_cons_pos p rest sku' hp']
      · rw [findProduct_cons_neg p (incProduct rest sku dOn dFree) sku' hp',
          findProduct_cons_neg p rest sku' hp', ih]

theorem incProduct_of_notFound (ps : List Product) (sku : String) (dOn dFree : Int)
    (h : findProduct ps sku = none) : incProduct ps sku dOn dFree = ps := by
  induction ps with
  | nil => rfl
  | cons p rest ih =>
    by_cases hp : p.sku = sku
    · rw [findProduct_cons_pos p rest sku hp] at h
      exact absurd h (by simp)
    · rw [findProduct_cons_neg p rest sku hp] at h
      rw [incProduct_cons_neg p rest sku dOn dFree hp, ih h]

theorem findProduct_foldl_inc (d : Line → Int) (lines : List Line) (ps : List Product)
    (sku : String) :
    findProduct (lines.foldl (fun ps l => incProduct ps l.product_sku (d l) (d l)) ps) sku =
      (findProduct ps sku).map
        (fun p => { p with on_hand := p.on_hand + lineSum d sku lines,
                           free_to_use := p.free_to_use + lineSum d sku lines }) := by
  induction lines generalizing ps with
  | nil => cases hf : findProduct ps sku <;> simp [lineSum, hf]
  | cons a rest ih =>
    rw [List.foldl_cons, ih]
    by_cases h : a.product_sku = sku
    · rw [h, findProduct_incProduct_self]
      cases hf : findProduct ps sku <;> simp [lineSum, h, hf, add_assoc]
    · rw [findProduct_incProduct_ne ps a.product_sku sku (d a) (d a) (Ne.symm h)]
      cases hf : findProduct ps sku <;> simp [lineSum, h, hf]

theorem lineSum_eq_zero (d : Line → Int) (sku : String) (lines : List Line)
    (h : ∀ x ∈ lines, x.product_sku ≠ sku) : lineSum d sku lines = 0 := by
  induction lines with
  | nil => rfl
  | cons a rest ih =>
    have ha := h a (List.mem_cons_self a rest)
    simp [lineSum, ha, ih fun x hx => h x (List.mem_cons_of_mem a hx)]

theorem lineSum_of_nodup (lines : List Line) (l : Line) (hl : l ∈ lines)
    (hnd : (lines.map Line.product_sku).Nodup) :
    lineSum Line.quantity l.product_sku lines = l.quantity := by
  induction lines with
  | nil => cases hl
  | cons a rest ih =>
    rw [List.map_cons, List.nodup_cons] at hnd
    rcases List.mem_cons.mp hl with h | h
    · subst h
      have hz : lineSum Line.quantity l.product_sku rest = 0 :=
        lineSum_eq_zero _ _ rest fun x hx hxe =>
          hnd.1 (hxe ▸ List.mem_map_of_mem Line.product_sku hx)
      simp [lineSum, hz]
    · have hne : a.product_sku ≠ l.product_sku := fun he =>
        hnd.1 (he ▸ List.mem_map_of_mem Line.product_sku h)
      simp [lineSum, hne, ih h hnd.2]

theorem lineSum_neg (sku : String) (lines : List Line) :
    lineSum (fun l => -l.quantity) sku lines = -(lineSum Line.quantity sku lines) := by
  induction lines with
  | nil => simp [lineSum]
  | cons a rest ih =>
    by_cases h : a.product_sku = sku
    · simp [lineSum, h, ih]; ring
    · simp [lineSum, h, ih]

theorem findOp_cons_pos (o : Operation) (ops : List Operation) (reference : String)
    (h : o.reference = reference) : findOp (o :: ops) reference = some o :=
  List.find?_cons_of_pos _ (by simp [h])

theorem findOp_cons_neg (o : Operation) (ops : List Operation) (reference : String)
    (h : o.reference ≠ reference) : findOp (o :: ops) reference = findOp ops reference :=
  List.find?_cons_of_neg _ (by simp [h])

theorem setOpStatus_cons_pos (o : Operation) (ops : List Operation) (reference s : String)
    (h : o.reference = reference) :
    setOpStatus (o :: ops) reference s = { o with status := s } :: ops := by
  simp [setOpStatus, h]

theorem setOpStatus_cons_neg (o : Operation) (ops : List Operation) (reference s : String)
    (h : o.reference ≠ reference) :
    setOpStatus (o :: ops) reference s = o :: setOpStatus ops reference s := by
  simp [setOpStatus, h]

theorem setOpStatus_self (ops : List Operation) (reference : String) (op : Operation)
    (h : findOp ops reference = some op) : setOpStatus ops reference op.status = ops := by
  induction ops with
  | nil => cases h
  | cons o rest ih =>
    by_cases ho : o.reference = reference
    · rw [findOp_cons_pos o rest reference ho] at h
      rw [setOpStatus_cons_pos o rest reference op.status ho, ← Option.some.inj h]
    · rw [findOp_cons_neg o rest reference ho] at h
      rw [setOpStatus_cons_neg o rest reference _ ho, ih h]

theorem findOp_setOpStatus (ops : List Operation) (reference s : String) :
    findOp (setOpStatus ops reference s) reference =
      (findOp ops reference).map (fun o => { o with status := s }) := by
  induction ops with
  | nil => rfl
  | cons o rest ih =>
    by_cases ho : o.reference = reference
    · rw [setOpStatus_cons_pos o rest reference s ho,
        findOp_cons_pos { o with status := s } rest reference ho, findOp_cons_pos o rest reference ho]
      rfl
    · rw [setOpStatus_cons_neg o rest reference s ho,
        findOp_cons_neg o (setOpStatus rest reference s) reference ho,
        findOp_cons_neg o rest reference ho, ih]


/-! The claims.  Each claim theorem is stated over the embedded engine
(`receipt_action`, `delivery_action`, `create_receipt`, `create_delivery`)
and, when it carries hypotheses, instantiated on closed sample data by a
witness theorem right after it. -/

/-- Claim C1: for every receipt whose current status is Ready, the action
`validate` sets the status to Done, increases each line's product's
`on_hand` and `free_to_use` by the line quantity (for an arbitrary sku, by
the sum of the quantities of the lines bearing it; exactly the line
quantity when the line skus are distinct), and appends exactly one Move
with direction `in` per line. -/
theorem receipt_validate_ready (st : StoreState) (reference : String) (op : Operation)
    (hfind : findOp st.receipts reference = some op)
    (hst : op.status = "Ready") :
    ∃ st', receipt_action st reference "validate" =
        some (st', { reference := reference, status := "Done" }) ∧
      findOp st'.receipts reference = some { op with status := "Done" } ∧
      (∀ sku, findProduct st'.products sku =
        (findProduct st.products sku).map
          (fun p => { p with on_hand := p.on_hand + lineSum Line.quantity sku op.lines,
                             free_to_use := p.free_to_use + lineSum Line.quantity sku op.lines })) ∧
      st'.moves = st.moves ++ op.lines.map (mkMove reference op "in") ∧
      st'.deliveries = st.deliveries ∧
      ((op.lines.map Line.product_sku).Nodup → ∀ l ∈ op.lines,
        findProduct st'.products l.product_sku =
          (findProduct st.products l.product_sku).map
            (fun p => { p with on_hand := p.on_hand + l.quantity,
                               free_to_use := p.free_to_use + l.quantity })) := by
  refine ⟨{ st with
      products := op.lines.foldl
        (fun ps l => incProduct ps l.product_sku l.quantity l.quantity) st.products,
      moves := st.moves ++ op.lines.map (mkMove reference op "in"),
      receipts := setOpStatus st.receipts reference "Done" }, ?_, ?_, ?_, rfl, rfl, ?_⟩
  · simp [receipt_action, hfind, hst]
  · rw [findOp_setOpStatus, hfind]
    rfl
  · exact fun sku => findProduct_foldl_inc Line.quantity op.lines st.products sku
  · intro hnd l hl
    rw [findProduct_foldl_inc Line.quantity op.lines st.products l.product_sku,
      lineSum_of_nodup op.lines l hl hnd]

/-- Witness for C1: the seed scenario (receipt `R1` in Ready with one line
of five `DESK001`). -/
theorem receipt_validate_ready_witness :
    findOp stC1.receipts "R1" = some rReady ∧ rReady.status = "Ready" ∧
    (∃ st', receipt_action stC1 "R1" "validate" =
        some (st', { reference := "R1", status := "Done" }) ∧
      findOp st'.receipts "R1" = some { rReady with status := "Done" } ∧
      (∀ sku, findProduct st'.products sku =
        (findProduct stC1.products sku).map
          (fun p => { p with on_hand := p.on_hand + lineSum Line.quantity sku rReady.lines,
                             free_to_use := p.free_to_use + lineSum Line.quantity sku rReady.lines })) ∧
      st'.moves = stC1.moves ++ rReady.lines.map (mkMove "R1" rReady "in") ∧
      st'.deliveries = stC1.deliveries ∧
      ((rReady.lines.map Line.product_sku).Nodup → ∀ l ∈ rReady.lines,
        findProduct st'.products l.product_sku =
          (findProduct stC1.products l.product_sku).map
            (fun p => { p with on_hand := p.on_hand + l.quantity,
                               free_to_use := p.free_to_use + l.quantity }))) :=
  ⟨by decide, rfl, receipt_validate_ready stC1 "R1" rReady (by decide) rfl⟩

/-- Claim C2: for every delivery whose current status is Ready, the action
`validate` sets the status to Done, decreases each line's product's
`on_hand` and `free_to_use` by the line quantity, and appends exactly one
Move with direction `out` per line. -/
theorem delivery_validate_ready (st : StoreState) (reference : String) (op : Operation)
    (hfind : findOp st.deliveries reference = some op)
    (hst : op.status = "Ready") :
    ∃ st', delivery_action st reference "validate" =
        some (st', { reference := reference, status := "Done" }) ∧
      findOp st'.deliveries reference = some { op with status := "Done" } ∧
      (∀ sku, findProduct st'.products sku =
        (findProduct st.products sku).map
          (fun p => { p with on_hand := p.on_hand - lineSum Line.quantity sku op.lines,
                             free_to_use := p.free_to_use - lineSum Line.quantity sku op.lines })) ∧
      st'.moves = st.moves ++ op.lines.map (mkMove reference op "out") ∧
      st'.receipts = st.receipts ∧
      ((op.lines.map Line.product_sku).Nodup → ∀ l ∈ op.lines,
        findProduct st'.products l.product_sku =
          (findProduct st.products l.product_sku).map
            (fun p => { p with on_hand := p.on_hand - l.quantity,
                               free_to_use := p.free_to_use - l.quantity })) := by
  have hkey : ∀ sku, findProduct
      (op.lines.foldl (fun ps l => incProduct ps l.product_sku (-l.quantity) (-l.quantity))
        st.products) sku =
      (findProduct st.products sku).map
        (fun p => { p with on_hand := p.on_hand - lineSum Line.quantity sku op.lines,
                           free_to_use := p.free_to_use - lineSum Line.quantity sku op.lines }) := by
    intro sku
    have h := findProduct_foldl_inc (fun l => -l.quantity) op.lines st.products sku
    rw [lineSum_neg] at h
    rw [h]
    cases findProduct st.products sku <;> simp [sub_eq_add_neg]
  refine ⟨{ st with
      products := op.lines.foldl
        (fun ps l => incProduct ps l.product_sku (-l.quantity) (-l.quantity)) st.products,
      moves := st.moves ++ op.lines.map (mkMove reference op "out"),
      deliveries := setOpStatus st.deliveries reference "Done" }, ?_, ?_, hkey, rfl, rfl, ?_⟩
  · simp [delivery_action, hfind, hst]
  · rw [findOp_setOpStatus, hfind]
    rfl
  · intro hnd l hl
    rw [hkey l.product_sku, lineSum_of_nodup op.lines l hl hnd]

/-- Witness for C2: delivery `D1` in Ready with one line of five `DESK001`. -/
theorem delivery_validate_ready_witness :
    findOp stC2.deliveries "D1" = some dReady ∧ dReady.status = "Ready" ∧
    (∃ st', delivery_action stC2 "D1" "validate" =
        some (st', { reference := "D1", status := "Done" }) ∧
      findOp st'.deliveries "D1" = some { dReady with status := "Done" } ∧
      (∀ sku, findProduct st'.products sku =
        (findProduct stC2.products sku).map
          (fun p => { p with on_hand := p.on_hand - lineSum Line.quantity sku dReady.lines,
                             free_to_use := p.free_to_use - lineSum Line.quantity sku dReady.lines })) ∧
      st'.moves = stC2.moves ++ dReady.lines.map (mkMove "D1" dReady "out") ∧
      st'.receipts = stC2.receipts ∧
      ((dReady.lines.map Line.product_sku).Nodup → ∀ l ∈ dReady.lines,
        findProduct st'.products l.product_sku =
          (findProduct stC2.products l.product_sku).map
            (fun p => { p with on_hand := p.on_hand - l.quantity,
                               free_to_use := p.free_to_use - l.quantity }))) :=
  ⟨by decide, rfl, delivery_validate_ready stC2 "D1" dReady (by decide) rfl⟩

/-- Claim C3: for every delivery in Draft, the action `todo` yields Ready
when every line's referenced product has `free_to_use` at least the
requested quantity, Waiting when some line's product has insufficient
`free_to_use`; in both cases no stock or ledger side effect occurs (only
the delivery's own status is re-persisted). -/
theorem delivery_todo_draft (st : StoreState) (reference : String) (op : Operation)
    (hfind : findOp st.deliveries reference = some op)
    (hst : op.status = "Draft") :
    ∃ s st', delivery_action st reference "todo" =
        some (st', { reference := reference, status := s }) ∧
      st'.products = st.products ∧ st'.moves = st.moves ∧ st'.receipts = st.receipts ∧
      st'.deliveries = setOpStatus st.deliveries reference s ∧
      ((∀ l ∈ op.lines, ∃ p, findProduct st.products l.product_sku = some p ∧
          l.quantity ≤ p.free_to_use) → s = "Ready") ∧
      ((∃ l ∈ op.lines, ∃ p, findProduct st.products l.product_sku = some p ∧
          p.free_to_use < l.quantity) → s = "Waiting") := by
  by_cases hcase : (op.lines.filter (lineInsufficient st.products)).isEmpty = true
  · refine ⟨"Ready", { st with deliveries := setOpStatus st.deliveries reference "Ready" },
      ?_, rfl, rfl, rfl, rfl, fun _ => rfl, ?_⟩
    · simp [delivery_action, hfind, hst, hcase]
    · rintro ⟨l, hl, p, hp, hlt⟩
      exfalso
      rw [List.isEmpty_iff, List.filter_eq_nil_iff] at hcase
      refine hcase l hl ?_
      simp [lineInsufficient, hp]
      omega
  · refine ⟨"Waiting", { st with deliveries := setOpStatus st.deliveries reference "Waiting" },
      ?_, rfl, rfl, rfl, rfl, ?_, fun _ => rfl⟩
    · simp [delivery_action, hfind, hst, hcase]
    · intro hall
      exfalso
      apply hcase
      rw [List.isEmpty_iff, List.filter_eq_nil_iff]
      intro l hl
      obtain ⟨p, hp, hle⟩ := hall l hl
      simp [lineInsufficient, hp]
      omega

/-- Witness for C3: delivery `D1` in Draft with one line of five `DESK001`. -/
theorem delivery_todo_draft_witness :
    findOp stC3.deliveries "D1" = some dDraft ∧ dDraft.status = "Draft" ∧
    (∃ s st', delivery_action stC3 "D1" "todo" =
        some (st', { reference := "D1", status := s }) ∧
      st'.products = stC3.products ∧ st'.moves = stC3.moves ∧ st'.receipts = stC3.receipts ∧
      st'.deliveries = setOpStatus stC3.deliveries "D1" s ∧
      ((∀ l ∈ dDraft.lines, ∃ p, findProduct stC3.products l.product_sku = some p ∧
          l.quantity ≤ p.free_to_use) → s = "Ready") ∧
      ((∃ l ∈ dDraft.lines, ∃ p, findProduct stC3.products l.product_sku = some p ∧
          p.free_to_use < l.quantity) → s = "Waiting")) :=
  ⟨by decide, rfl, delivery_todo_draft stC3 "D1" dDraft (by decide) rfl⟩

/-- Claim C4: calling `validate` on an operation (receipt or delivery) whose
status is already Done is a complete no-op: the resulting store equals the
original store (so every product's quantities are unchanged and no Move is
appended), and Done is returned. -/
theorem validate_on_done_noop (st : StoreState) (reference : String) :
    (∀ op, findOp st.receipts reference = some op → op.status = "Done" →
      receipt_action st reference "validate" =
        some (st, { reference := reference, status := "Done" })) ∧
    (∀ op, findOp st.deliveries reference = some op → op.status = "Done" →
      delivery_action st reference "validate" =
        some (st, { reference := reference, status := "Done" })) := by
  constructor
  · intro op hfind hst
    have h := setOpStatus_self st.receipts reference op hfind
    rw [hst] at h
    simp [receipt_action, hfind, hst, h]
  · intro op hfind hst
    have h := setOpStatus_self st.deliveries reference op hfind
    rw [hst] at h
    simp [delivery_action, hfind, hst, h]

/-- Witness for C4: receipt `R1` and delivery `D1`, both already Done. -/
theorem validate_on_done_noop_witness :
    findOp stC4.receipts "R1" = some rDone ∧ rDone.status = "Done" ∧
    findOp stC4.deliveries "D1" = some dDone ∧ dDone.status = "Done" ∧
    receipt_action stC4 "R1" "validate" = some (stC4, { reference := "R1", status := "Done" }) ∧
    delivery_action stC4 "D1" "validate" = some (stC4, { reference := "D1", status := "Done" }) :=
  ⟨by decide, rfl, by decide, rfl,
    (validate_on_done_noop stC4 "R1").1 rDone (by decide) rfl,
    (validate_on_done_noop stC4 "D1").2 dDone (by decide) rfl⟩

/-- Claim C5, counterexample: Done is not terminal.  In a store whose receipt
`R1` is Done, the action `cancel` changes the status to Canceled. -/
theorem done_cancel_counterexample :
    (findOp stC5.receipts "R1").map Operation.status = some "Done" ∧
    (receipt_action stC5 "R1" "cancel").map (fun r => r.2.status) = some "Canceled" :=
  ⟨rfl, rfl⟩

/-- Claim C5 as amended: Canceled is terminal under every action (the store
is re-persisted unchanged), and Done is terminal under every action except
`cancel`, which moves it to Canceled; in all cases no stock or ledger side
effect occurs. -/
theorem terminal_amended (st : StoreState) (reference action : String) :
    (∀ op, findOp st.receipts reference = some op →
      (op.status = "Canceled" →
        receipt_action st reference action =
          some (st, { reference := reference, status := "Canceled" })) ∧
      (op.status = "Done" → ∃ st' res,
        receipt_action st reference action = some (st', res) ∧
        st'.products = st.products ∧ st'.moves = st.moves ∧ st'.deliveries = st.deliveries ∧
        res.reference = reference ∧
        res.status = (if action = "cancel" then "Canceled" else "Done") ∧
        st'.receipts = setOpStatus st.receipts reference res.status)) ∧
    (∀ op, findOp st.deliveries reference = some op →
      (op.status = "Canceled" →
        delivery_action st reference action =
          some (st, { reference := reference, status := "Canceled" })) ∧
      (op.status = "Done" → ∃ st' res,
        delivery_action st reference action = some (st', res) ∧
        st'.products = st.products ∧ st'.moves = st.moves ∧ st'.receipts = st.receipts ∧
        res.reference = reference ∧
        res.status = (if action = "cancel" then "Canceled" else "Done") ∧
        st'.deliveries = setOpStatus st.deliveries reference res.status)) := by
  constructor
  · intro op hfind
    constructor
    · intro hst
      have h := setOpStatus_self st.receipts reference op hfind
      rw [hst] at h
      by_cases hc : action = "cancel" <;> simp [receipt_action, hfind, hst, hc, h]
    · intro hst
      by_cases hc : action = "cancel"
      · exact ⟨{ st with receipts := setOpStatus st.receipts reference "Canceled" },
          { reference := reference, status := "Canceled" },
          by simp [receipt_action, hfind, hst, hc], rfl, rfl, rfl, rfl,
          by rw [if_pos hc], rfl⟩
      · have h := setOpStatus_self st.receipts reference op hfind
        rw [hst] at h
        exact ⟨st, { reference := reference, status := "Done" },
          by simp [receipt_action, hfind, hst, hc, h], rfl, rfl, rfl, rfl,
          by rw [if_neg hc], h.symm⟩
  · intro op hfind
    constructor
    · intro hst
      have h := setOpStatus_self st.deliveries reference op hfind
      rw [hst] at h
      by_cases hc : action = "cancel" <;> simp [delivery_action, hfind, hst, hc, h]
    · intro hst
      by_cases hc : action = "cancel"
      · exact ⟨{ st with deliveries := setOpStatus st.deliveries reference "Canceled" },
          { reference := reference, status := "Canceled" },
          by simp [delivery_action, hfind, hst, hc], rfl, rfl, rfl, rfl,
          by rw [if_pos hc], rfl⟩
      · have h := setOpStatus_self st.deliveries reference op hfind
        rw [hst] at h
        exact ⟨st, { reference := reference, status := "Done" },
          by simp [delivery_action, hfind, hst, hc, h], rfl, rfl, rfl, rfl,
          by rw [if_neg hc], h.symm⟩

/-- Witness for C5: receipt `R1` Done under `todo`, delivery `D1` Canceled
under `cancel`. -/
theorem terminal_amended_witness :
    findOp stC5.receipts "R1" = some rDone ∧ rDone.status = "Done" ∧
    (∃ st' res, receipt_action stC5 "R1" "todo" = some (st', res) ∧
      st'.products = stC5.products ∧ st'.moves = stC5.moves ∧ st'.deliveries = stC5.deliveries ∧
      res.reference = "R1" ∧
      res.status = (if ("todo" : String) = "cancel" then "Canceled" else "Done") ∧
      st'.receipts = setOpStatus stC5.receipts "R1" res.status) ∧
    findOp stC5.deliveries "D1" = some dCanceled ∧ dCanceled.status = "Canceled" ∧
    delivery_action stC5 "D1" "cancel" = some (stC5, { reference := "D1", status := "Canceled" }) :=
  ⟨by decide, rfl,
    ((terminal_amended stC5 "R1" "todo").1 rDone (by decide)).2 rfl,
    by decide, rfl,
    ((terminal_amended stC5 "D1" "cancel").2 dCanceled (by decide)).1 rfl⟩

/-- Claim C6: for an existing operation reference, an unknown action name, or
a known action whose status precondition fails (`todo` when not Draft,
`validate` when not Ready; `cancel` has no precondition), is a silent
no-op: the store is re-persisted unchanged and the unchanged status is
returned, with no error. -/
theorem invalid_transition_noop (st : StoreState) (reference action : String) :
    (∀ op, findOp st.receipts reference = some op →
      ¬(action = "todo" ∧ op.status = "Draft") →
      ¬(action = "validate" ∧ op.status = "Ready") →
      action ≠ "cancel" →
      receipt_action st reference action =
        some (st, { reference := reference, status := op.status })) ∧
    (∀ op, findOp st.deliveries reference = some op →
      ¬(action = "todo" ∧ op.status = "Draft") →
      ¬(action = "validate" ∧ op.status = "Ready") →
      action ≠ "cancel" →
      delivery_action st reference action =
        some (st, { reference := reference, status := op.status })) := by
  constructor
  · intro op hfind h1 h2 h3
    have c1 : (action == "todo" && op.status == "Draft") = false := by
      rw [Bool.and_eq_false_iff]
      by_cases ha : action = "todo"
      · exact Or.inr (beq_eq_false_iff_ne.mpr fun hs => h1 ⟨ha, hs⟩)
      · exact Or.inl (beq_eq_false_iff_ne.mpr ha)
    have c2 : (action == "validate" && op.status == "Ready") = false := by
      rw [Bool.and_eq_false_iff]
      by_cases ha : action = "validate"
      · exact Or.inr (beq_eq_false_iff_ne.mpr fun hs => h2 ⟨ha, hs⟩)
      · exact Or.inl (beq_eq_false_iff_ne.mpr ha)
    have c3 : (action == "cancel") = false := beq_eq_false_iff_ne.mpr h3
    have h := setOpStatus_self st.receipts reference op hfind
    simp [receipt_action, hfind, c1, c2, c3, h]
  · intro op hfind h1 h2 h3
    have c1 : (action == "todo" && op.status == "Draft") = false := by
      rw [Bool.and_eq_false_iff]
      by_cases ha : action = "todo"
      · exact Or.inr (beq_eq_false_iff_ne.mpr fun hs => h1 ⟨ha, hs⟩)
      · exact Or.inl (beq_eq_false_iff_ne.mpr ha)
    have c2 : (action == "validate" && op.status == "Ready") = false := by
      rw [Bool.and_eq_false_iff]
      by_cases ha : action = "validate"
      · exact Or.inr (beq_eq_false_iff_ne.mpr fun hs => h2 ⟨ha, hs⟩)
      · exact Or.inl (beq_eq_false_iff_ne.mpr ha)
    have c3 : (action == "cancel") = false := beq_eq_false_iff_ne.mpr h3
    have h := setOpStatus_self st.deliveries reference op hfind
    simp [delivery_action, hfind, c1, c2, c3, h]

/-- Witness for C6: the unknown action `foobar` on a Ready receipt and a
Ready delivery. -/
theorem invalid_transition_noop_witness :
    findOp stC6.receipts "R1" = some rReady ∧ findOp stC6.deliveries "D1" = some dReady ∧
    receipt_action stC6 "R1" "foobar" =
      some (stC6, { reference := "R1", status := rReady.status }) ∧
    delivery_action stC6 "D1" "foobar" =
      some (stC6, { reference := "D1", status := dReady.status }) :=
  ⟨by decide, by decide,
    (invalid_transition_noop stC6 "R1" "foobar").1 rReady (by decide) (by decide) (by decide)
      (by decide),
    (invalid_transition_noop stC6 "D1" "foobar").2 dReady (by decide) (by decide) (by decide)
      (by decide)⟩

/-- Claim C7: for every operation in a non-terminal status, `cancel` sets the
status to Canceled while leaving products and the move ledger untouched
(only the operation's own status field changes). -/
theorem cancel_nonterminal (st : StoreState) (reference : String) :
    (∀ op, findOp st.receipts reference = some op →
      op.status ≠ "Done" → op.status ≠ "Canceled" →
      receipt_action st reference "cancel" =
        some ({ st with receipts := setOpStatus st.receipts reference "Canceled" },
              { reference := reference, status := "Canceled" })) ∧
    (∀ op, findOp st.deliveries reference = some op →
      op.status ≠ "Done" → op.status ≠ "Canceled" →
      delivery_action st reference "cancel" =
        some ({ st with deliveries := setOpStatus st.deliveries reference "Canceled" },
              { reference := reference, status := "Canceled" })) := by
  constructor
  · intro op hfind _ _
    by_cases hs : op.status = "Draft" <;> simp [receipt_action, hfind, hs]
  · intro op hfind _ _
    by_cases hs : op.status = "Draft" <;> simp [delivery_action, hfind, hs]

/-- Witness for C7: receipt `R1` and delivery `D1`, both in Draft. -/
theorem cancel_nonterminal_witness :
    findOp stC7.receipts "R1" = some rDraft ∧ rDraft.status ≠ "Done" ∧ rDraft.status ≠ "Canceled" ∧
    findOp stC7.deliveries "D1" = some dDraft ∧
    receipt_action stC7 "R1" "cancel" =
      some ({ stC7 with receipts := setOpStatus stC7.receipts "R1" "Canceled" },
            { reference := "R1", status := "Canceled" }) ∧
    delivery_action stC7 "D1" "cancel" =
      some ({ stC7 with deliveries := setOpStatus stC7.deliveries "D1" "Canceled" },
            { reference := "D1", status := "Canceled" }) :=
  ⟨by decide, by decide, by decide, by decide,
    (cancel_nonterminal stC7 "R1").1 rDraft (by decide) (by decide) (by decide),
    (cancel_nonterminal stC7 "D1").2 dDraft (by decide) (by decide) (by decide)⟩

/-- Claim C8: during `validate`, a line whose `product_sku` has no product
record is silently ignored for the stock update (the per-line `$inc` is the
identity on the catalog, the sku still resolves to no product afterwards,
and no error is reported) while the corresponding Move is still appended
with that quantity against the nonexistent sku. -/
theorem validate_missing_sku (st : StoreState) (reference : String) (op : Operation) (l : Line)
    (hl : l ∈ op.lines) (hmiss : findProduct st.products l.product_sku = none) :
    (findOp st.receipts reference = some op → op.status = "Ready" →
      ∃ st', receipt_action st reference "validate" =
          some (st', { reference := reference, status := "Done" }) ∧
        (∀ dOn dFree, incProduct st.products l.product_sku dOn dFree = st.products) ∧
        findProduct st'.products l.product_sku = none ∧
        mkMove reference op "in" l ∈ st'.moves) ∧
    (findOp st.deliveries reference = some op → op.status = "Ready" →
      ∃ st', delivery_action st reference "validate" =
          some (st', { reference := reference, status := "Done" }) ∧
        (∀ dOn dFree, incProduct st.products l.product_sku dOn dFree = st.products) ∧
        findProduct st'.products l.product_sku = none ∧
        mkMove reference op "out" l ∈ st'.moves) := by
  constructor
  · intro hfind hst
    refine ⟨{ st with
        products := op.lines.foldl
          (fun ps l => incProduct ps l.product_sku l.quantity l.quantity) st.products,
        moves := st.moves ++ op.lines.map (mkMove reference op "in"),
        receipts := setOpStatus st.receipts reference "Done" }, ?_, ?_, ?_, ?_⟩
    · simp [receipt_action, hfind, hst]
    · exact fun dOn dFree => incProduct_of_notFound st.products l.product_sku dOn dFree hmiss
    · rw [findProduct_foldl_inc Line.quantity op.lines st.products l.product_sku, hmiss]
      rfl
    · exact List.mem_append_right st.moves (List.mem_map_of_mem (mkMove reference op "in") hl)
  · intro hfind hst
    refine ⟨{ st with
        products := op.lines.foldl
          (fun ps l => incProduct ps l.product_sku (-l.quantity) (-l.quantity)) st.products,
        moves := st.moves ++ op.lines.map (mkMove reference op "out"),
        deliveries := setOpStatus st.deliveries reference "Done" }, ?_, ?_, ?_, ?_⟩
    · simp [delivery_action, hfind, hst]
    · exact fun dOn dFree => incProduct_of_notFound st.products l.product_sku dOn dFree hmiss
    · have h := findProduct_foldl_inc (fun x => -x.quantity) op.lines st.products l.product_sku
      rw [h, hmiss]
      rfl
    · exact List.mem_append_right st.moves (List.mem_map_of_mem (mkMove reference op "out") hl)

/-- Witness for C8: Ready receipt `R1` and Ready delivery `D1`, each with one
line against the unknown sku `GHOST`. -/
theorem validate_missing_sku_witness :
    ghostLine ∈ rGhost.lines ∧ findProduct stC8.products ghostLine.product_sku = none ∧
    findOp stC8.receipts "R1" = some rGhost ∧ rGhost.status = "Ready" ∧
    (∃ st', receipt_action stC8 "R1" "validate" =
        some (st', { reference := "R1", status := "Done" }) ∧
      (∀ dOn dFree, incProduct stC8.products ghostLine.product_sku dOn dFree = stC8.products) ∧
      findProduct st'.products ghostLine.product_sku = none ∧
      mkMove "R1" rGhost "in" ghostLine ∈ st'.moves) ∧
    findOp stC8.deliveries "D1" = some dGhost ∧ dGhost.status = "Ready" ∧
    (∃ st', delivery_action stC8 "D1" "validate" =
        some (st', { reference := "D1", status := "Done" }) ∧
      (∀ dOn dFree, incProduct stC8.products ghostLine.product_sku dOn dFree = stC8.products) ∧
      findProduct st'.products ghostLine.product_sku = none ∧
      mkMove "D1" dGhost "out" ghostLine ∈ st'.moves) :=
  ⟨by decide, by decide, by decide, rfl,
    (validate_missing_sku stC8 "R1" rGhost ghostLine (by decide) (by decide)).1 (by decide) rfl,
    by decide, rfl,
    (validate_missing_sku stC8 "D1" dGhost ghostLine (by decide) (by decide)).2 (by decide) rfl⟩

/-- Claim C9: on creation an operation's reference is the type prefix
(`WH/IN/` or `WH/OUT/`) followed by the zero-padded width-4 count of
existing operations of that type plus one; in particular the first receipt
is `WH/IN/0001`, the second `WH/IN/0002`, and deliveries follow the same
pattern with `WH/OUT/`.  The new operation starts in Draft. -/
theorem reference_allocation (st : StoreState) (f t c : Option String) (ls : List Line) :
    (create_receipt st f t c ls).2.reference = "WH/IN/" ++ pad4 (st.receipts.length + 1) ∧
    (create_delivery st t c ls).2.reference = "WH/OUT/" ++ pad4 (st.deliveries.length + 1) ∧
    (create_receipt st f t c ls).2.status = "Draft" ∧
    (create_delivery st t c ls).2.status = "Draft" ∧
    (st.receipts = [] → (create_receipt st f t c ls).2.reference = "WH/IN/0001") ∧
    (st.receipts = [] → ∀ f2 t2 c2 ls2,
      (create_receipt (create_receipt st f t c ls).1 f2 t2 c2 ls2).2.reference = "WH/IN/0002") ∧
    (st.deliveries = [] → (create_delivery st t c ls).2.reference = "WH/OUT/0001") ∧
    (st.deliveries = [] → ∀ t2 c2 ls2,
      (create_delivery (create_delivery st t c ls).1 t2 c2 ls2).2.reference = "WH/OUT/0002") := by
  refine ⟨rfl, rfl, rfl, rfl, ?_, ?_, ?_, ?_⟩
  · intro h
    simp [create_receipt, h]
    rfl
  · intro h f2 t2 c2 ls2
    simp [create_receipt, h]
    rfl
  · intro h
    simp [create_delivery, h]
    rfl
  · intro h t2 c2 ls2
    simp [create_delivery, h]
    rfl

/-- Witness for C9: creation starting from an empty store. -/
theorem reference_allocation_witness :
    stC9.receipts = ([] : List Operation) ∧ stC9.deliveries = ([] : List Operation) ∧
    (create_receipt stC9 none none none []).2.reference = "WH/IN/0001" ∧
    (create_receipt (create_receipt stC9 none none none []).1 none none none []).2.reference =
      "WH/IN/0002" ∧
    (create_delivery stC9 none none []).2.reference = "WH/OUT/0001" ∧
    (create_delivery (create_delivery stC9 none none []).1 none none []).2.reference =
      "WH/OUT/0002" :=
  ⟨rfl, rfl,
    (reference_allocation stC9 none none none []).2.2.2.2.1 rfl,
    (reference_allocation stC9 none none none []).2.2.2.2.2.1 rfl none none none [],
    (reference_allocation stC9 none none none []).2.2.2.2.2.2.1 rfl,
    (reference_allocation stC9 none none none []).2.2.2.2.2.2.2 rfl none none []⟩

/-- Claim C10: for a delivery in Draft, if some line references a sku with no
product record, `todo` sets the status to Waiting (a missing product counts
as insufficient stock), never Ready. -/
theorem delivery_todo_missing_product (st : StoreState) (reference : String) (op : Operation)
    (l : Line) (hfind : findOp st.deliveries reference = some op)
    (hst : op.status = "Draft") (hl : l ∈ op.lines)
    (hmiss : findProduct st.products l.product_sku = none) :
    delivery_action st reference "todo" =
      some ({ st with deliveries := setOpStatus st.deliveries reference "Waiting" },
            { reference := reference, status := "Waiting" }) := by
  have hmem : l ∈ op.lines.filter (lineInsufficient st.products) :=
    List.mem_filter.mpr ⟨hl, by simp [lineInsufficient, hmiss]⟩
  have hcase : (op.lines.filter (lineInsufficient st.products)).isEmpty = false := by
    rw [List.isEmpty_eq_false_iff_exists_mem]
    exact ⟨l, hmem⟩
  simp [delivery_action, hfind, hst, hcase]

/-- Witness for C10: Draft delivery `D1` with one line against the unknown
sku `GHOST`. -/
theorem delivery_todo_missing_witness :
    findOp stC10.deliveries "D1" = some dGhostDraft ∧ dGhostDraft.status = "Draft" ∧
    ghostLine ∈ dGhostDraft.lines ∧ findProduct stC10.products ghostLine.product_sku = none ∧
    delivery_action stC10 "D1" "todo" =
      some ({ stC10 with deliveries := setOpStatus stC10.deliveries "D1" "Waiting" },
            { reference := "D1", status := "Waiting" }) :=
  ⟨by decide, rfl, by decide, by decide,
    delivery_todo_missing_product stC10 "D1" dGhostDraft ghostLine (by decide) rfl (by decide)
      (by decide)⟩
